import Mathlib

/-!
Verification of the environment-control core of
`web_environment_control.py`: the byte-frame codec (`pack_frame`),
the incremental stream parser (`FrameParser.feed`), the hysteresis
auto-control logic (`EnvironmentData.auto_control`), the serial-frame
dispatch (`EnvironmentData.on_serial_data`), the manual device override
(`control_device`), the command builder (`send_device_command`) and the
serial manager's degraded paths (`list_ports`, `connect`).

Bytes are modelled as `Nat` (all arithmetic masked where the source
masks); Python's arbitrary-precision signed ints are modelled as `Int`
where a value can go negative (`expected_payload`); sensor readings and
thresholds (Python floats) are modelled as `ℚ`.
-/

namespace EnvCtl

/-- XOR checksum over a byte sequence, masked to 8 bits (`calc_cs`). -/
def calc_cs (data : List Nat) : Nat :=
  (data.foldl (fun cs b => cs ^^^ b) 0) &&& 0xFF

/-- Start-of-frame marker (`SOF = 0xAA`). -/
def SOF : Nat := 0xAA

/-- End-of-frame marker (`EOF = 0x55`). -/
def EOF : Nat := 0x55

/-- `pack_frame(cmd, payload)`: `SOF, LEN, CMD, payload..., checksum, EOF`
with `LEN = 1 + len(payload)` and the checksum taken over
`[LEN, CMD] + payload`. -/
def pack_frame (cmd : Nat) (payload : List Nat) : List Nat :=
  let length := 1 + payload.length
  let body := length :: cmd :: payload
  let cs := calc_cs body
  SOF :: (body ++ [cs, EOF])

/-- The mutable state of `FrameParser`.  `state` takes the source's
numeric values 0, 1, 2, 21, 3, 4.  `expected_payload` is an `Int`
because the source computes `self.length - 1` with Python integers,
which is `-1` when the LEN byte is 0. -/
structure FrameParser where
  state : Nat
  buf : List Nat
  length : Nat
  expected_payload : Int
  payload : List Nat
deriving DecidableEq, Repr

/-- `FrameParser.__init__`. -/
def FrameParser.init : FrameParser :=
  { state := 0, buf := [], length := 0, expected_payload := 0, payload := [] }

/-- One step of `FrameParser.feed(b)`: the updated parser and the
optional decoded `(cmd, payload)` returned on this byte. -/
def FrameParser.feed (p : FrameParser) (b : Nat) : FrameParser × Option (Nat × List Nat) :=
  if p.state = 0 then
    if b = SOF then ({ p with buf := [], state := 1 }, none) else (p, none)
  else if p.state = 1 then
    ({ p with length := b, buf := [b], state := 2 }, none)
  else if p.state = 2 then
    if p.length = 1 then
      ({ p with buf := p.buf ++ [b], state := 3 }, none)
    else
      ({ p with
          buf := p.buf ++ [b]
          state := 21
          expected_payload := (p.length : Int) - 1
          payload := [] }, none)
  else if p.state = 21 then
    let pl := p.payload ++ [b]
    if (pl.length : Int) ≥ p.expected_payload then
      ({ p with payload := pl, buf := p.buf ++ pl, state := 3 }, none)
    else
      ({ p with payload := pl }, none)
  else if p.state = 3 then
    if calc_cs p.buf ≠ b then ({ p with state := 0 }, none)
    else ({ p with state := 4 }, none)
  else if p.state = 4 then
    if b = EOF then
      ({ p with state := 0 },
       some (p.buf.getD 1 0, (p.buf.drop 2).take (p.buf.getD 0 0 - 1)))
    else ({ p with state := 0 }, none)
  else (p, none)

/-- Feed a whole byte list, collecting every decoded frame in order. -/
def FrameParser.run (p : FrameParser) : List Nat → FrameParser × List (Nat × List Nat)
  | [] => (p, [])
  | b :: bs =>
    let step := p.feed b
    let rest := step.1.run bs
    (rest.1, step.2.toList ++ rest.2)

theorem FrameParser.run_nil (p : FrameParser) : p.run [] = (p, []) := rfl

theorem FrameParser.run_cons (p : FrameParser) (b : Nat) (bs : List Nat) :
    p.run (b :: bs) = (((p.feed b).1.run bs).1,
      (p.feed b).2.toList ++ ((p.feed b).1.run bs).2) := rfl

theorem FrameParser.run_append (p : FrameParser) (xs ys : List Nat) :
    p.run (xs ++ ys) = (((p.run xs).1.run ys).1, (p.run xs).2 ++ ((p.run xs).1.run ys).2) := by
  induction xs generalizing p with
  | nil => simp [run_nil]
  | cons b bs ih =>
    simp only [List.cons_append, run_cons, ih]
    simp [List.append_assoc]

theorem FrameParser.feed_state3_ok (B pl : List Nat) (L : Nat) (e : Int) (b : Nat)
    (h : calc_cs B = b) :
    FrameParser.feed ⟨3, B, L, e, pl⟩ b = (⟨4, B, L, e, pl⟩, none) := by
  simp [feed, h]

theorem FrameParser.feed_state3_bad (B pl : List Nat) (L : Nat) (e : Int) (b : Nat)
    (h : calc_cs B ≠ b) :
    FrameParser.feed ⟨3, B, L, e, pl⟩ b = (⟨0, B, L, e, pl⟩, none) := by
  simp [feed, h]

theorem FrameParser.feed_state4_eof (B pl : List Nat) (L : Nat) (e : Int) :
    FrameParser.feed ⟨4, B, L, e, pl⟩ EOF
      = (⟨0, B, L, e, pl⟩, some (B.getD 1 0, (B.drop 2).take (B.getD 0 0 - 1))) := by
  simp [feed]

theorem FrameParser.feed_state0_skip (B pl : List Nat) (L : Nat) (e : Int) (b : Nat)
    (h : b ≠ SOF) :
    FrameParser.feed ⟨0, B, L, e, pl⟩ b = (⟨0, B, L, e, pl⟩, none) := by
  simp [feed, h]

theorem FrameParser.feed_state21_done (B acc : List Nat) (L : Nat) (e : Int) (b : Nat)
    (h : e ≤ (acc.length : Int) + 1) :
    FrameParser.feed ⟨21, B, L, e, acc⟩ b
      = (⟨3, B ++ (acc ++ [b]), L, e, acc ++ [b]⟩, none) := by
  simp only [feed]
  norm_num
  omega

theorem FrameParser.feed_state21_more (B acc : List Nat) (L : Nat) (e : Int) (b : Nat)
    (h : ¬ e ≤ (acc.length : Int) + 1) :
    FrameParser.feed ⟨21, B, L, e, acc⟩ b = (⟨21, B, L, e, acc ++ [b]⟩, none) := by
  simp only [feed]
  norm_num
  omega

/-- Payload accumulation: a parser in state 21 that still expects
`ps.length` more payload bytes consumes exactly `ps`, appends it to the
frame buffer, and moves to the checksum state, emitting nothing. -/
theorem FrameParser.run_payload :
    ∀ ps : List Nat, ps ≠ [] → ∀ (acc B : List Nat) (L : Nat) (e : Int),
      e = (acc.length : Int) + ps.length →
      FrameParser.run ⟨21, B, L, e, acc⟩ ps
        = (⟨3, B ++ (acc ++ ps), L, e, acc ++ ps⟩, []) := by
  intro ps
  induction ps with
  | nil => intro h; exact absurd rfl h
  | cons b bs ih =>
    intro _ acc B L e he
    rw [run_cons]
    cases bs with
    | nil =>
      rw [FrameParser.feed_state21_done B acc L e b (by simp at he; omega)]
      simp [run_nil]
    | cons c cs =>
      rw [FrameParser.feed_state21_more B acc L e b (by simp at he; omega)]
      simp only
      rw [ih (by simp) (acc ++ [b]) B L e (by simp at he ⊢; omega)]
      simp

/-- Running the bytes `SOF, LEN, CMD, payload` from any state-0 parser
reaches the checksum state with the frame body buffered and nothing
emitted. -/
theorem FrameParser.run_to_checksum (p : FrameParser) (hp : p.state = 0)
    (cmd : Nat) (payload : List Nat) :
    ∃ q : FrameParser,
      p.run ([SOF, 1 + payload.length, cmd] ++ payload) = (q, []) ∧
      q.state = 3 ∧ q.buf = (1 + payload.length) :: cmd :: payload := by
  rcases p with ⟨st, B, L0, e0, pl0⟩
  obtain rfl : st = 0 := hp
  cases payload with
  | nil =>
    exact ⟨⟨3, [1, cmd], 1, e0, pl0⟩, rfl, rfl, rfl⟩
  | cons a as =>
    have h1 : FrameParser.run ⟨0, B, L0, e0, pl0⟩ [SOF, 1 + (a :: as).length, cmd]
        = (⟨21, [1 + (a :: as).length, cmd], 1 + (a :: as).length,
            ((1 + (a :: as).length : Nat) : Int) - 1, []⟩, []) := by
      simp only [run_cons, run_nil, feed, List.length_cons]
      norm_num
    have h2 := FrameParser.run_payload (a :: as) (by simp) [] [1 + (a :: as).length, cmd]
        (1 + (a :: as).length) (((1 + (a :: as).length : Nat) : Int) - 1)
        (by push_cast [List.length_nil, List.length_cons]; omega)
    rw [run_append, h1]
    simp only
    rw [h2]
    refine ⟨⟨3, [1 + (a :: as).length, cmd] ++ ([] ++ (a :: as)), 1 + (a :: as).length,
            ((1 + (a :: as).length : Nat) : Int) - 1, [] ++ (a :: as)⟩, by simp, rfl, by simp⟩

/-- Running one full well-formed frame (`pack_frame cmd payload`) from any
state-0 parser emits exactly `(cmd, payload)` and returns to state 0. -/
theorem FrameParser.run_frame (p : FrameParser) (hp : p.state = 0)
    (cmd : Nat) (payload : List Nat) :
    ∃ q : FrameParser, p.run (pack_frame cmd payload) = (q, [(cmd, payload)]) ∧ q.state = 0 := by
  obtain ⟨q, hq, hqs, hqb⟩ := FrameParser.run_to_checksum p hp cmd payload
  rcases q with ⟨qs, qB, qL, qe, qpl⟩
  obtain rfl : qs = 3 := hqs
  obtain rfl : qB = (1 + payload.length) :: cmd :: payload := hqb
  have hpack : pack_frame cmd payload
      = ([SOF, 1 + payload.length, cmd] ++ payload)
        ++ [calc_cs ((1 + payload.length) :: cmd :: payload), EOF] := by
    simp [pack_frame]
  rw [hpack, run_append, hq]
  simp only
  rw [run_cons, FrameParser.feed_state3_ok _ _ _ _ _ rfl]
  simp only
  rw [run_cons, FrameParser.feed_state4_eof]
  refine ⟨⟨0, (1 + payload.length) :: cmd :: payload, qL, qe, qpl⟩, ?_, rfl⟩
  simp [run_nil, List.take_length]

/-- C1: Round-trip of the frame codec: for every command byte `cmd` in
`[0,255]` and every payload of length 0 to 254, feeding the bytes of
`pack_frame cmd payload` one at a time into a fresh parser emits nothing
on every byte before the last, and emits exactly `(cmd, payload)` on the
final terminator byte. -/
theorem claim1_roundtrip (cmd : Nat) (payload : List Nat)
    (hcmd : cmd ≤ 255) (hlen : payload.length ≤ 254)
    (hbytes : ∀ b ∈ payload, b ≤ 255) :
    (FrameParser.init.run ((pack_frame cmd payload).dropLast)).2 = [] ∧
    (FrameParser.init.run (pack_frame cmd payload)).2 = [(cmd, payload)] := by
  obtain ⟨q, hq, hqs, hqb⟩ := FrameParser.run_to_checksum FrameParser.init rfl cmd payload
  rcases q with ⟨qs, qB, qL, qe, qpl⟩
  obtain rfl : qs = 3 := hqs
  obtain rfl : qB = (1 + payload.length) :: cmd :: payload := hqb
  constructor
  · have hdrop : (pack_frame cmd payload).dropLast
        = ([SOF, 1 + payload.length, cmd] ++ payload)
          ++ [calc_cs ((1 + payload.length) :: cmd :: payload)] := by
      have hsplit : pack_frame cmd payload
          = (([SOF, 1 + payload.length, cmd] ++ payload)
             ++ [calc_cs ((1 + payload.length) :: cmd :: payload)]) ++ [EOF] := by
        simp [pack_frame]
      rw [hsplit, List.dropLast_concat]
    rw [hdrop, FrameParser.run_append, hq]
    simp only
    rw [FrameParser.run_cons, FrameParser.feed_state3_ok _ _ _ _ _ rfl]
    simp [FrameParser.run_nil]
  · obtain ⟨q', hq', _⟩ := FrameParser.run_frame FrameParser.init rfl cmd payload
    rw [hq']

/-- Witness for C1 at `cmd = 7`, `payload = [1, 2]`. -/
theorem claim1_roundtrip_witness :
    ((7 : Nat) ≤ 255 ∧ ([1, 2] : List Nat).length ≤ 254 ∧
      ∀ b ∈ ([1, 2] : List Nat), b ≤ 255) ∧
    ((FrameParser.init.run ((pack_frame 7 [1, 2]).dropLast)).2 = [] ∧
     (FrameParser.init.run (pack_frame 7 [1, 2])).2 = [(7, [1, 2])]) :=
  ⟨⟨by norm_num, by norm_num, by decide⟩,
   claim1_roundtrip 7 [1, 2] (by norm_num) (by norm_num) (by decide)⟩

/-- C2: Resynchronization: a valid frame whose checksum byte was replaced
by any wrong value, immediately followed by a second fully valid frame,
yields exactly one decoded frame over the whole stream — the second one. -/
theorem claim2_resync (cmd1 : Nat) (payload1 : List Nat) (x cmd2 : Nat) (payload2 : List Nat)
    (h1 : payload1.length ≤ 254) (h2 : payload2.length ≤ 254)
    (hx : x ≠ calc_cs ((1 + payload1.length) :: cmd1 :: payload1)) :
    (FrameParser.init.run
      (([SOF, 1 + payload1.length, cmd1] ++ payload1 ++ [x, EOF])
        ++ pack_frame cmd2 payload2)).2 = [(cmd2, payload2)] := by
  obtain ⟨q, hq, hqs, hqb⟩ := FrameParser.run_to_checksum FrameParser.init rfl cmd1 payload1
  rcases q with ⟨qs, qB, qL, qe, qpl⟩
  obtain rfl : qs = 3 := hqs
  obtain rfl : qB = (1 + payload1.length) :: cmd1 :: payload1 := hqb
  have hassoc : ([SOF, 1 + payload1.length, cmd1] ++ payload1 ++ [x, EOF])
        ++ pack_frame cmd2 payload2
      = ([SOF, 1 + payload1.length, cmd1] ++ payload1)
        ++ (x :: EOF :: pack_frame cmd2 payload2) := by
    simp
  rw [hassoc, FrameParser.run_append, hq]
  simp only
  rw [FrameParser.run_cons, FrameParser.feed_state3_bad _ _ _ _ _ (Ne.symm hx)]
  simp only
  rw [FrameParser.run_cons, FrameParser.feed_state0_skip _ _ _ _ _ (by decide)]
  simp only
  obtain ⟨q', hq', _⟩ :=
    FrameParser.run_frame ⟨0, (1 + payload1.length) :: cmd1 :: payload1, qL, qe, qpl⟩
      rfl cmd2 payload2
  rw [hq']
  simp

/-- Witness for C2: first frame `(5, [9])` with checksum corrupted to 0,
second frame `(8, [])`. -/
theorem claim2_resync_witness :
    (([9] : List Nat).length ≤ 254 ∧ ([] : List Nat).length ≤ 254 ∧
      (0 : Nat) ≠ calc_cs [1 + ([9] : List Nat).length, 5, 9]) ∧
    (FrameParser.init.run
      (([SOF, 1 + ([9] : List Nat).length, 5] ++ [9] ++ [0, EOF])
        ++ pack_frame 8 [])).2 = [(8, [])] :=
  ⟨⟨by norm_num, by norm_num, by decide⟩,
   claim2_resync 5 [9] 0 8 [] (by norm_num) (by norm_num) (by decide)⟩

/-- C9: the LEN = 0 edge of the parser.  After `SOF, 0x00, c` the parser
is in the payload state with `expected_payload = LEN - 1 = -1` (Python
integer arithmetic), so the next byte `x` is still consumed as payload
and entered into the checksummed buffer; on a matching checksum and the
terminator the parser emits `(c, [])`.  A LEN byte of 1 consumes one byte
less yet yields the same empty payload. -/
theorem claim9_len_zero (c x : Nat) (hc : c ≤ 255) (hx : x ≤ 255) :
    (FrameParser.init.run [SOF, 0, c]).1.state = 21 ∧
    (FrameParser.init.run [SOF, 0, c]).1.expected_payload = -1 ∧
    (FrameParser.init.run [SOF, 0, c, x]).1 = ⟨3, [0, c, x], 0, -1, [x]⟩ ∧
    (FrameParser.init.run [SOF, 0, c, x, calc_cs [0, c, x], EOF]).2 = [(c, [])] ∧
    (FrameParser.init.run [SOF, 1, c, calc_cs [1, c], EOF]).2 = [(c, [])] := by
  refine ⟨rfl, rfl, rfl, ?_, ?_⟩
  · have hstep : (FrameParser.init.run [SOF, 0, c, x]).1 = ⟨3, [0, c, x], 0, -1, [x]⟩ := rfl
    have hsplit : ([SOF, 0, c, x, calc_cs [0, c, x], EOF] : List Nat)
        = [SOF, 0, c, x] ++ [calc_cs [0, c, x], EOF] := by simp
    rw [hsplit, FrameParser.run_append, hstep]
    have hpre : (FrameParser.init.run [SOF, 0, c, x]).2 = [] := rfl
    rw [hpre]
    rw [FrameParser.run_cons, FrameParser.feed_state3_ok _ _ _ _ _ rfl]
    simp only
    rw [FrameParser.run_cons, FrameParser.feed_state4_eof]
    simp [FrameParser.run_nil]
  · have hstep : (FrameParser.init.run [SOF, 1, c]).1 = ⟨3, [1, c], 1, 0, []⟩ := rfl
    have hsplit : ([SOF, 1, c, calc_cs [1, c], EOF] : List Nat)
        = [SOF, 1, c] ++ [calc_cs [1, c], EOF] := by simp
    rw [hsplit, FrameParser.run_append, hstep]
    have hpre : (FrameParser.init.run [SOF, 1, c]).2 = [] := rfl
    rw [hpre]
    rw [FrameParser.run_cons, FrameParser.feed_state3_ok _ _ _ _ _ rfl]
    simp only
    rw [FrameParser.run_cons, FrameParser.feed_state4_eof]
    simp [FrameParser.run_nil]

/-- Witness for C9 at `c = 3`, `x = 200`. -/
theorem claim9_len_zero_witness :
    ((3 : Nat) ≤ 255 ∧ (200 : Nat) ≤ 255) ∧
    ((FrameParser.init.run [SOF, 0, 3]).1.state = 21 ∧
     (FrameParser.init.run [SOF, 0, 3]).1.expected_payload = -1 ∧
     (FrameParser.init.run [SOF, 0, 3, 200]).1 = ⟨3, [0, 3, 200], 0, -1, [200]⟩ ∧
     (FrameParser.init.run [SOF, 0, 3, 200, calc_cs [0, 3, 200], EOF]).2 = [(3, [])] ∧
     (FrameParser.init.run [SOF, 1, 3, calc_cs [1, 3], EOF]).2 = [(3, [])]) :=
  ⟨⟨by norm_num, by norm_num⟩, claim9_len_zero 3 200 (by norm_num) (by norm_num)⟩

/-- The sensor readings held in `self.data` (Python floats, modelled as
`ℚ`). -/
structure Sample where
  temperature : ℚ
  humidity : ℚ
  co2 : ℚ
  light : ℚ
  smoke : ℚ
deriving DecidableEq, Repr

/-- The threshold table `self.thresholds`: `temperature {min, max}`,
`humidity {min, max}`, `co2 {max}`, `light {min, max}`, `smoke {max}`. -/
structure Thresholds where
  temperature_min : ℚ
  temperature_max : ℚ
  humidity_min : ℚ
  humidity_max : ℚ
  co2_max : ℚ
  light_min : ℚ
  light_max : ℚ
  smoke_max : ℚ
deriving DecidableEq, Repr

/-- The six device flags `self.device_states`. -/
structure DeviceStates where
  heating : Bool
  cooling : Bool
  humidify : Bool
  dehumidify : Bool
  ventilation : Bool
  close_vent : Bool
deriving DecidableEq, Repr

/-- One entry of `self.events` (the wall-clock timestamp produced by
`datetime.now()` is outside the model). -/
structure Event where
  etype : String
  message : String
  level : String
deriving DecidableEq, Repr

/-- `add_event`: append, then evict the oldest entry once the log holds
more than 100 entries. -/
def add_event (events : List Event) (e : Event) : List Event :=
  let es := events ++ [e]
  if 100 < es.length then es.tail else es

/-- The temperature loop of `auto_control`: below min turn heating on and
cooling off (only when heating was off), above max turn cooling on and
heating off (only when cooling was off), inside the band switch off
whichever of the two is on.  Returns the updated flags and the messages
appended to `changes`. -/
def temp_control (data : Sample) (th : Thresholds) (dev : DeviceStates) :
    DeviceStates × List String :=
  if data.temperature < th.temperature_min then
    if dev.heating then (dev, [])
    else ({ dev with heating := true, cooling := false }, ["启动加热系统"])
  else if data.temperature > th.temperature_max then
    if dev.cooling then (dev, [])
    else ({ dev with cooling := true, heating := false }, ["启动制冷系统"])
  else
    let r1 := if dev.heating then ({ dev with heating := false }, ["关闭加热系统"])
              else (dev, [])
    if r1.1.cooling then ({ r1.1 with cooling := false }, r1.2 ++ ["关闭制冷系统"])
    else r1

/-- The humidity loop of `auto_control` (humidify/dehumidify). -/
def hum_control (data : Sample) (th : Thresholds) (dev : DeviceStates) :
    DeviceStates × List String :=
  if data.humidity < th.humidity_min then
    if dev.humidify then (dev, [])
    else ({ dev with humidify := true, dehumidify := false }, ["启动加湿系统"])
  else if data.humidity > th.humidity_max then
    if dev.dehumidify then (dev, [])
    else ({ dev with dehumidify := true, humidify := false }, ["启动除湿系统"])
  else
    let r1 := if dev.humidify then ({ dev with humidify := false }, ["关闭加湿系统"])
              else (dev, [])
    if r1.1.dehumidify then ({ r1.1 with dehumidify := false }, r1.2 ++ ["关闭除湿系统"])
    else r1

/-- The CO2 loop of `auto_control` (ventilation). -/
def co2_control (data : Sample) (th : Thresholds) (dev : DeviceStates) :
    DeviceStates × List String :=
  if data.co2 > th.co2_max then
    if dev.ventilation then (dev, []) else ({ dev with ventilation := true }, ["启动通风系统"])
  else
    if dev.ventilation then ({ dev with ventilation := false }, ["关闭通风系统"])
    else (dev, [])

/-- `EnvironmentData.auto_control`: the three hysteresis loops in source
order, then one `DEVICE`/`INFO` event appended per collected change
message. -/
def auto_control (data : Sample) (th : Thresholds) (dev : DeviceStates)
    (events : List Event) : DeviceStates × List Event :=
  let r1 := temp_control data th dev
  let r2 := hum_control data th r1.1
  let r3 := co2_control data th r2.1
  (r3.1,
   ((r1.2 ++ r2.2) ++ r3.2).foldl
     (fun evs m => add_event evs ⟨"DEVICE", m, "INFO"⟩) events)

/-- Flag configuration the temperature loop leaves behind. -/
def temp_settled (data : Sample) (th : Thresholds) (dev : DeviceStates) : Prop :=
  if data.temperature < th.temperature_min then dev.heating = true
  else if data.temperature > th.temperature_max then dev.cooling = true
  else dev.heating = false ∧ dev.cooling = false

/-- Flag configuration the humidity loop leaves behind. -/
def hum_settled (data : Sample) (th : Thresholds) (dev : DeviceStates) : Prop :=
  if data.humidity < th.humidity_min then dev.humidify = true
  else if data.humidity > th.humidity_max then dev.dehumidify = true
  else dev.humidify = false ∧ dev.dehumidify = false

/-- Flag configuration the CO2 loop leaves behind. -/
def co2_settled (data : Sample) (th : Thresholds) (dev : DeviceStates) : Prop :=
  if data.co2 > th.co2_max then dev.ventilation = true else dev.ventilation = false

theorem temp_control_settled (data : Sample) (th : Thresholds) (dev : DeviceStates) :
    temp_settled data th (temp_control data th dev).1 := by
  unfold temp_control temp_settled
  dsimp only
  split_ifs <;> simp_all

theorem hum_control_settled (data : Sample) (th : Thresholds) (dev : DeviceStates) :
    hum_settled data th (hum_control data th dev).1 := by
  unfold hum_control hum_settled
  dsimp only
  split_ifs <;> simp_all

theorem co2_control_settled (data : Sample) (th : Thresholds) (dev : DeviceStates) :
    co2_settled data th (co2_control data th dev).1 := by
  unfold co2_control co2_settled
  split_ifs <;> simp_all

theorem temp_control_noop (data : Sample) (th : Thresholds) (dev : DeviceStates)
    (h : temp_settled data th dev) : temp_control data th dev = (dev, []) := by
  unfold temp_settled at h
  unfold temp_control
  dsimp only
  split_ifs at h ⊢ <;> simp_all

theorem hum_control_noop (data : Sample) (th : Thresholds) (dev : DeviceStates)
    (h : hum_settled data th dev) : hum_control data th dev = (dev, []) := by
  unfold hum_settled at h
  unfold hum_control
  dsimp only
  split_ifs at h ⊢ <;> simp_all

theorem co2_control_noop (data : Sample) (th : Thresholds) (dev : DeviceStates)
    (h : co2_settled data th dev) : co2_control data th dev = (dev, []) := by
  unfold co2_settled at h
  unfold co2_control
  split_ifs at h ⊢ <;> simp_all

theorem temp_control_frame (data : Sample) (th : Thresholds) (dev : DeviceStates) :
    (temp_control data th dev).1.humidify = dev.humidify ∧
    (temp_control data th dev).1.dehumidify = dev.dehumidify ∧
    (temp_control data th dev).1.ventilation = dev.ventilation ∧
    (temp_control data th dev).1.close_vent = dev.close_vent := by
  unfold temp_control
  dsimp only
  split_ifs <;> simp_all

theorem hum_control_frame (data : Sample) (th : Thresholds) (dev : DeviceStates) :
    (hum_control data th dev).1.heating = dev.heating ∧
    (hum_control data th dev).1.cooling = dev.cooling ∧
    (hum_control data th dev).1.ventilation = dev.ventilation ∧
    (hum_control data th dev).1.close_vent = dev.close_vent := by
  unfold hum_control
  dsimp only
  split_ifs <;> simp_all

theorem co2_control_frame (data : Sample) (th : Thresholds) (dev : DeviceStates) :
    (co2_control data th dev).1.heating = dev.heating ∧
    (co2_control data th dev).1.cooling = dev.cooling ∧
    (co2_control data th dev).1.humidify = dev.humidify ∧
    (co2_control data th dev).1.dehumidify = dev.dehumidify ∧
    (co2_control data th dev).1.close_vent = dev.close_vent := by
  unfold co2_control
  split_ifs <;> simp_all

theorem temp_settled_congr (data : Sample) (th : Thresholds) (d1 d2 : DeviceStates)
    (hh : d2.heating = d1.heating) (hc : d2.cooling = d1.cooling)
    (h : temp_settled data th d1) : temp_settled data th d2 := by
  unfold temp_settled at h ⊢
  split_ifs at h ⊢ <;> simp_all

theorem hum_settled_congr (data : Sample) (th : Thresholds) (d1 d2 : DeviceStates)
    (hh : d2.humidify = d1.humidify) (hc : d2.dehumidify = d1.dehumidify)
    (h : hum_settled data th d1) : hum_settled data th d2 := by
  unfold hum_settled at h ⊢
  split_ifs at h ⊢ <;> simp_all

/-- C5: Idempotent hysteresis: from every state, running `auto_control` a
second time with the sample and thresholds unchanged leaves the device
flags where the first call put them and appends no event log entry. -/
theorem claim5_idempotent (data : Sample) (th : Thresholds) (dev : DeviceStates)
    (events : List Event) :
    auto_control data th (auto_control data th dev events).1
        (auto_control data th dev events).2
      = auto_control data th dev events := by
  have e1 := temp_control_settled data th dev
  have e2 := hum_control_settled data th (temp_control data th dev).1
  have e3 := co2_control_settled data th (hum_control data th (temp_control data th dev).1).1
  have f2 := hum_control_frame data th (temp_control data th dev).1
  have f3 := co2_control_frame data th (hum_control data th (temp_control data th dev).1).1
  have hts : temp_settled data th (auto_control data th dev events).1 := by
    unfold auto_control
    dsimp only
    exact temp_settled_congr data th _ _
      (by rw [f3.1, f2.1]) (by rw [f3.2.1, f2.2.1]) e1
  have hhs : hum_settled data th (auto_control data th dev events).1 := by
    unfold auto_control
    dsimp only
    exact hum_settled_congr data th _ _ (by rw [f3.2.2.1]) (by rw [f3.2.2.2.1]) e2
  have hcs : co2_settled data th (auto_control data th dev events).1 := by
    unfold auto_control
    dsimp only
    exact e3
  conv_lhs => rw [auto_control]
  rw [temp_control_noop data th _ hts]
  dsimp only
  rw [hum_control_noop data th _ hhs, co2_control_noop data th _ hcs]
  simp

/-- Heating and cooling are not both on. -/
def hc_mutex (dev : DeviceStates) : Prop := (dev.heating && dev.cooling) = false

/-- Humidify and dehumidify are not both on. -/
def hd_mutex (dev : DeviceStates) : Prop := (dev.humidify && dev.dehumidify) = false

theorem temp_control_hc (data : Sample) (th : Thresholds) (dev : DeviceStates)
    (h : hc_mutex dev) : hc_mutex (temp_control data th dev).1 := by
  unfold hc_mutex at h ⊢
  unfold temp_control
  dsimp only
  split_ifs <;> simp_all

theorem hum_control_hd (data : Sample) (th : Thresholds) (dev : DeviceStates)
    (h : hd_mutex dev) : hd_mutex (hum_control data th dev).1 := by
  unfold hd_mutex at h ⊢
  unfold hum_control
  dsimp only
  split_ifs <;> simp_all

theorem auto_control_mutex (data : Sample) (th : Thresholds) (dev : DeviceStates)
    (events : List Event) (h1 : hc_mutex dev) (h2 : hd_mutex dev) :
    hc_mutex (auto_control data th dev events).1 ∧
    hd_mutex (auto_control data th dev events).1 := by
  have f1 := temp_control_frame data th dev
  have f2 := hum_control_frame data th (temp_control data th dev).1
  have f3 := co2_control_frame data th (hum_control data th (temp_control data th dev).1).1
  constructor
  · have hc1 := temp_control_hc data th dev h1
    unfold auto_control
    dsimp only
    unfold hc_mutex at hc1 ⊢
    rw [f3.1, f3.2.1, f2.1, f2.2.1]
    exact hc1
  · have hd1 : hd_mutex (temp_control data th dev).1 := by
      unfold hd_mutex at h2 ⊢
      rw [f1.1, f1.2.1]
      exact h2
    have hd2 := hum_control_hd data th (temp_control data th dev).1 hd1
    unfold auto_control
    dsimp only
    unfold hd_mutex at hd2 ⊢
    rw [f3.2.2.1, f3.2.2.2.1]
    exact hd2

/-- The full mutable state of the `EnvironmentData` singleton that the
core touches: sensor sample, optional `pm25` reading, device flags,
thresholds and the event log. -/
structure EnvState where
  data : Sample
  pm25 : Option ℚ
  devices : DeviceStates
  thresholds : Thresholds
  events : List Event
deriving DecidableEq, Repr

/-- `EnvironmentData.__init__`. -/
def init_state : EnvState :=
  { data := ⟨25, 60, 400, 350, 0⟩
    pm25 := none
    devices := ⟨false, false, false, false, false, false⟩
    thresholds := ⟨20, 26, 40, 70, 1000, 100, 800, 50⟩
    events := [] }

/-- One `auto_control` pass on the current state. -/
def do_tick (st : EnvState) : EnvState :=
  let r := auto_control st.data st.thresholds st.devices st.events
  { st with devices := r.1, events := r.2 }

/-- `EnvironmentData.on_serial_data(cmd, payload)`.  The IEEE-754
`struct.unpack` of 5 little-endian floats is outside a rational model, so
the 20-byte decode is a parameter `dec`; every other branch follows the
source.  Command `0x01` with at least 20 payload bytes stores the five
readings (the fourth as `pm25`) and logs a `SERIAL` event; command `0x02`
with a nonempty payload decodes the six flag bits of the first byte and
logs a `SERIAL` event; everything else leaves the state untouched. -/
def on_serial_data (dec : List Nat → ℚ × ℚ × ℚ × ℚ × ℚ) (st : EnvState)
    (cmd : Nat) (payload : List Nat) : EnvState :=
  if cmd = 0x01 then
    if 20 ≤ payload.length then
      let v := dec (payload.take 20)
      { st with
          data := { st.data with
            temperature := v.1
            humidity := v.2.1
            co2 := v.2.2.1
            smoke := v.2.2.2.2 }
          pm25 := some v.2.2.2.1
          events := add_event st.events ⟨"SERIAL", "接收到环境数据", "INFO"⟩ }
    else st
  else if cmd = 0x02 then
    if 1 ≤ payload.length then
      let b := payload.headD 0
      { st with
          devices :=
            { heating := (b &&& 0x01) != 0
              cooling := (b &&& 0x02) != 0
              humidify := (b &&& 0x04) != 0
              dehumidify := (b &&& 0x08) != 0
              ventilation := (b &&& 0x10) != 0
              close_vent := (b &&& 0x20) != 0 }
          events := add_event st.events ⟨"SERIAL", "接收到设备状态", "INFO"⟩ }
    else st
  else st

/-- Dictionary lookup `self.device_states[device]`. -/
def device_get (d : DeviceStates) (name : String) : Option Bool :=
  if name = "heating" then some d.heating
  else if name = "cooling" then some d.cooling
  else if name = "humidify" then some d.humidify
  else if name = "dehumidify" then some d.dehumidify
  else if name = "ventilation" then some d.ventilation
  else if name = "close_vent" then some d.close_vent
  else none

/-- Dictionary store `self.device_states[device] = v`. -/
def device_set (d : DeviceStates) (name : String) (v : Bool) : DeviceStates :=
  if name = "heating" then { d with heating := v }
  else if name = "cooling" then { d with cooling := v }
  else if name = "humidify" then { d with humidify := v }
  else if name = "dehumidify" then { d with dehumidify := v }
  else if name = "ventilation" then { d with ventilation := v }
  else if name = "close_vent" then { d with close_vent := v }
  else d

/-- The `device_names` display map of the `/api/control` route. -/
def device_cname (name : String) : String :=
  if name = "heating" then "加热系统"
  else if name = "cooling" then "制冷系统"
  else if name = "humidify" then "加湿系统"
  else if name = "dehumidify" then "除湿系统"
  else if name = "ventilation" then "通风系统"
  else if name = "close_vent" then "通风关闭"
  else name

/-- The `/api/control` route (`control_device`): a recognized device is
set to `action == 'on'`; a `MANUAL` event is logged only when the flag
actually changed; an unknown device leaves the state untouched. -/
def control_device (st : EnvState) (device action : String) : EnvState :=
  if (device_get st.devices device).isSome then
    let old := (device_get st.devices device).getD false
    let newv := action = "on"
    { st with
        devices := device_set st.devices device newv
        events :=
          if old ≠ newv then
            add_event st.events
              ⟨"MANUAL",
               "手动" ++ (if action = "on" then "启动" else "关闭") ++ device_cname device,
               "INFO"⟩
          else st.events }
  else st

/-- Which `(sensor, type)` pairs exist in the threshold table. -/
def threshold_has (sensor ttype : String) : Bool :=
  (sensor == "temperature" && (ttype == "min" || ttype == "max")) ||
  (sensor == "humidity" && (ttype == "min" || ttype == "max")) ||
  (sensor == "co2" && ttype == "max") ||
  (sensor == "light" && (ttype == "min" || ttype == "max")) ||
  (sensor == "smoke" && ttype == "max")

/-- Store into the threshold table. -/
def set_threshold (t : Thresholds) (sensor ttype : String) (value : ℚ) : Thresholds :=
  if sensor = "temperature" then
    if ttype = "min" then { t with temperature_min := value }
    else { t with temperature_max := value }
  else if sensor = "humidity" then
    if ttype = "min" then { t with humidity_min := value }
    else { t with humidity_max := value }
  else if sensor = "co2" then { t with co2_max := value }
  else if sensor = "light" then
    if ttype = "min" then { t with light_min := value }
    else { t with light_max := value }
  else { t with smoke_max := value }

/-- The `/api/threshold` route (`update_threshold`). -/
def update_threshold (st : EnvState) (sensor ttype : String) (value : ℚ) : EnvState :=
  if threshold_has sensor ttype then
    { st with
        thresholds := set_threshold st.thresholds sensor ttype value
        events := add_event st.events
          ⟨"SYSTEM", "更新" ++ sensor ++ "阈值: " ++ ttype ++ "=" ++ toString value, "INFO"⟩ }
  else st

/-- The external mutations the core's shared state undergoes: a sample
refresh (simulation writer), a threshold update, an `auto_control` tick,
a decoded serial frame, and a manual override request. -/
inductive Step where
  | setData (s : Sample)
  | setThreshold (sensor ttype : String) (value : ℚ)
  | tick
  | frame (cmd : Nat) (payload : List Nat)
  | manual (device action : String)
deriving Repr

/-- Apply one step (`dec` is the float decoder of `on_serial_data`). -/
def apply_step (dec : List Nat → ℚ × ℚ × ℚ × ℚ × ℚ) (st : EnvState) : Step → EnvState
  | .setData s => { st with data := s }
  | .setThreshold sensor ttype v => update_threshold st sensor ttype v
  | .tick => do_tick st
  | .frame cmd payload => on_serial_data dec st cmd payload
  | .manual device action => control_device st device action

/-- Apply a sequence of steps. -/
def run_steps (dec : List Nat → ℚ × ℚ × ℚ × ℚ × ℚ) (st : EnvState) : List Step → EnvState
  | [] => st
  | s :: rest => run_steps dec (apply_step dec st s) rest

/-- A canonical concrete instantiation of the float decoder, used for
concrete evaluations. -/
def dec0 : List Nat → ℚ × ℚ × ℚ × ℚ × ℚ := fun _ => (0, 0, 0, 0, 0)

/-- A device-state byte that does not assert both flags of either
complementary pair. -/
def frame_safe (cmd : Nat) (payload : List Nat) : Prop :=
  cmd = 0x02 ∧
  (payload.headD 0 &&& 0x01 = 0 ∨ payload.headD 0 &&& 0x02 = 0) ∧
  (payload.headD 0 &&& 0x04 = 0 ∨ payload.headD 0 &&& 0x08 = 0)

/-- A manual override that never switches a device on while its
complementary device is on. -/
def manual_safe (dev : DeviceStates) (device action : String) : Prop :=
  action = "on" →
    ((device = "heating" → dev.cooling = false) ∧
     (device = "cooling" → dev.heating = false) ∧
     (device = "humidify" → dev.dehumidify = false) ∧
     (device = "dehumidify" → dev.humidify = false))

/-- Steps under which the exclusion invariant can be preserved: ticks,
sample/threshold writes, device-state frames without conflicting bits,
and non-conflicting manual overrides. -/
def safe_step (st : EnvState) : Step → Prop
  | .setData _ => True
  | .setThreshold _ _ _ => True
  | .tick => True
  | .frame cmd payload => frame_safe cmd payload
  | .manual device action => manual_safe st.devices device action

/-- Every step of the trace is safe in the state it is applied to. -/
def safe_trace (dec : List Nat → ℚ × ℚ × ℚ × ℚ × ℚ) (st : EnvState) : List Step → Prop
  | [] => True
  | s :: rest => safe_step st s ∧ safe_trace dec (apply_step dec st s) rest

theorem device_set_mutex (d : DeviceStates) (name : String) (v : Bool)
    (h1 : hc_mutex d) (h2 : hd_mutex d)
    (hs : v = true →
      ((name = "heating" → d.cooling = false) ∧
       (name = "cooling" → d.heating = false) ∧
       (name = "humidify" → d.dehumidify = false) ∧
       (name = "dehumidify" → d.humidify = false))) :
    hc_mutex (device_set d name v) ∧ hd_mutex (device_set d name v) := by
  simp only [hc_mutex, hd_mutex] at h1 h2 ⊢
  unfold device_set
  split_ifs <;> cases v <;> simp_all

theorem control_device_devices (st : EnvState) (device action : String) :
    (control_device st device action).devices
      = if (device_get st.devices device).isSome
        then device_set st.devices device (decide (action = "on"))
        else st.devices := by
  unfold control_device
  split_ifs <;> rfl

theorem step_mutex (dec : List Nat → ℚ × ℚ × ℚ × ℚ × ℚ) (st : EnvState) (s : Step)
    (h1 : hc_mutex st.devices) (h2 : hd_mutex st.devices) (hs : safe_step st s) :
    hc_mutex (apply_step dec st s).devices ∧ hd_mutex (apply_step dec st s).devices := by
  cases s with
  | setData sample => exact ⟨h1, h2⟩
  | setThreshold sensor ttype v =>
    have hdev : (apply_step dec st (Step.setThreshold sensor ttype v)).devices = st.devices := by
      show (update_threshold st sensor ttype v).devices = st.devices
      unfold update_threshold
      split_ifs <;> rfl
    rw [hdev]
    exact ⟨h1, h2⟩
  | tick =>
    exact auto_control_mutex st.data st.thresholds st.devices st.events h1 h2
  | frame cmd payload =>
    obtain ⟨rfl, hb1, hb2⟩ := hs
    have happ : apply_step dec st (Step.frame 0x02 payload)
        = on_serial_data dec st 0x02 payload := rfl
    rw [happ]
    unfold on_serial_data
    rw [if_neg (by norm_num), if_pos rfl]
    by_cases hlen : 1 ≤ payload.length
    · rw [if_pos hlen]
      constructor
      · show ((payload.headD 0 &&& 0x01 != 0) && (payload.headD 0 &&& 0x02 != 0)) = false
        rcases hb1 with h | h <;> rw [h] <;> simp
      · show ((payload.headD 0 &&& 0x04 != 0) && (payload.headD 0 &&& 0x08 != 0)) = false
        rcases hb2 with h | h <;> rw [h] <;> simp
    · rw [if_neg hlen]
      exact ⟨h1, h2⟩
  | manual device action =>
    have happ : apply_step dec st (Step.manual device action)
        = control_device st device action := rfl
    rw [happ]
    have hdev := control_device_devices st device action
    by_cases hsome : (device_get st.devices device).isSome
    · rw [hdev, if_pos hsome]
      exact device_set_mutex st.devices device (action = "on") h1 h2
        (fun hv => hs (of_decide_eq_true hv))
    · rw [hdev, if_neg hsome]
      exact ⟨h1, h2⟩

theorem run_steps_mutex (dec : List Nat → ℚ × ℚ × ℚ × ℚ × ℚ) :
    ∀ (steps : List Step) (st : EnvState),
      hc_mutex st.devices → hd_mutex st.devices → safe_trace dec st steps →
      hc_mutex (run_steps dec st steps).devices ∧ hd_mutex (run_steps dec st steps).devices := by
  intro steps
  induction steps with
  | nil => intro st h1 h2 _; exact ⟨h1, h2⟩
  | cons s rest ih =>
    intro st h1 h2 htr
    obtain ⟨hsafe, hrest⟩ := htr
    obtain ⟨h1', h2'⟩ := step_mutex dec st s h1 h2 hsafe
    exact ih (apply_step dec st s) h1' h2' hrest

/-- C3 counterexample: the claim as stated is false — a decoded
device-state frame with status byte `0x03` (an allowed mutator: cmd
`0x02`, any status byte) drives heating and cooling both true from the
initial state. -/
theorem claim3_counterexample :
    ¬ (((run_steps dec0 init_state [Step.frame 0x02 [0x03]]).devices.heating &&
        (run_steps dec0 init_state [Step.frame 0x02 [0x03]]).devices.cooling) = false) := by
  decide

/-- C3 amended: starting from the initial state, after any sequence of
ticks, sample/threshold writes, device-state frames whose status byte
does not set both bits of a complementary pair, and manual overrides that
do not switch a device on while its complementary device is on, heating
and cooling are never both true and humidify and dehumidify are never
both true. -/
theorem claim3_amended (dec : List Nat → ℚ × ℚ × ℚ × ℚ × ℚ) (steps : List Step)
    (h : safe_trace dec init_state steps) :
    ((run_steps dec init_state steps).devices.heating &&
     (run_steps dec init_state steps).devices.cooling) = false ∧
    ((run_steps dec init_state steps).devices.humidify &&
     (run_steps dec init_state steps).devices.dehumidify) = false :=
  run_steps_mutex dec steps init_state rfl rfl h

/-- Witness for the amended C3 on the one-step trace `[tick]`. -/
theorem claim3_amended_witness :
    safe_trace dec0 init_state [Step.tick] ∧
    (((run_steps dec0 init_state [Step.tick]).devices.heating &&
      (run_steps dec0 init_state [Step.tick]).devices.cooling) = false ∧
     ((run_steps dec0 init_state [Step.tick]).devices.humidify &&
      (run_steps dec0 init_state [Step.tick]).devices.dehumidify) = false) :=
  ⟨⟨trivial, trivial⟩, claim3_amended dec0 [Step.tick] ⟨trivial, trivial⟩⟩

/-- Ticks driven with arbitrary samples and thresholds (the periodic
loop refreshes `self.data` and `auto_control` reads both live). -/
def run_ticks (st : EnvState) : List (Sample × Thresholds) → EnvState
  | [] => st
  | p :: rest => run_ticks (do_tick { st with data := p.1, thresholds := p.2 }) rest

/-- C4: Mutual exclusion under tick alone: from the initial state, after
any sequence of `auto_control` ticks with any samples and any threshold
values, heating and cooling are never both true, nor humidify and
dehumidify. -/
theorem claim4_tick_mutex (ticks : List (Sample × Thresholds)) :
    ((run_ticks init_state ticks).devices.heating &&
     (run_ticks init_state ticks).devices.cooling) = false ∧
    ((run_ticks init_state ticks).devices.humidify &&
     (run_ticks init_state ticks).devices.dehumidify) = false := by
  suffices h : ∀ (ts : List (Sample × Thresholds)) (st : EnvState),
      hc_mutex st.devices → hd_mutex st.devices →
      hc_mutex (run_ticks st ts).devices ∧ hd_mutex (run_ticks st ts).devices by
    exact h ticks init_state rfl rfl
  intro ts
  induction ts with
  | nil => intro st h1 h2; exact ⟨h1, h2⟩
  | cons p rest ih =>
    intro st h1 h2
    obtain ⟨h1', h2'⟩ := auto_control_mutex p.1 p.2 st.devices st.events h1 h2
    exact ih _ h1' h2'

/-- The `device_map` bitmask table of `send_device_command`. -/
def device_map (name : String) : Option Nat :=
  if name = "heating" then some 0x01
  else if name = "cooling" then some 0x02
  else if name = "humidify" then some 0x04
  else if name = "dehumidify" then some 0x08
  else if name = "ventilation" then some 0x10
  else if name = "close_vent" then some 0x20
  else none

/-- The aggregate status byte computed by `send_device_command`'s loop
over `self.device_states.items()` in dict insertion order: the toggled
device contributes with the new state, every other device with its
current flag. -/
def command_status (dev : DeviceStates) (device : String) (state : Bool) : Nat :=
  let eff := fun (name : String) (cur : Bool) => if name = device then state else cur
  (((((if eff "heating" dev.heating then 0x01 else 0) |||
      (if eff "cooling" dev.cooling then 0x02 else 0)) |||
      (if eff "humidify" dev.humidify then 0x04 else 0)) |||
      (if eff "dehumidify" dev.dehumidify then 0x08 else 0)) |||
      (if eff "ventilation" dev.ventilation then 0x10 else 0)) |||
      (if eff "close_vent" dev.close_vent then 0x20 else 0)

/-- `EnvironmentData.send_device_command(device, state)`: fails when the
serial port is not connected or the device is unknown, otherwise sends a
command-`0x03` frame whose single payload byte is the aggregate status.
The result is the frame handed to `SerialManager.send_command`. -/
def send_device_command (connected : Bool) (dev : DeviceStates)
    (device : String) (state : Bool) : Option (List Nat) :=
  if connected = false then none
  else if (device_map device).isSome then
    some (pack_frame 0x03 [command_status dev device state])
  else none

/-- C6: Command-builder correctness: for each of the six recognized
devices, any desired state and any current flags, `send_device_command`
(when connected) emits the command-`0x03` frame over one status byte in
which bit `i` of `{heating:0, cooling:1, humidify:2, dehumidify:3,
ventilation:4, close_vent:5}` is exactly the effective state of that
device (the toggled one overridden, all others as recorded); in
particular toggling cooling on over `{ventilation := true}` gives
`0x12`. -/
theorem claim6_command (dev : DeviceStates) (state : Bool) (device : String)
    (hdev : device ∈ ["heating", "cooling", "humidify", "dehumidify",
                      "ventilation", "close_vent"]) :
    (send_device_command true dev device state
      = some (pack_frame 0x03 [command_status dev device state])) ∧
    ((command_status dev device state).testBit 0
      = if device = "heating" then state else dev.heating) ∧
    ((command_status dev device state).testBit 1
      = if device = "cooling" then state else dev.cooling) ∧
    ((command_status dev device state).testBit 2
      = if device = "humidify" then state else dev.humidify) ∧
    ((command_status dev device state).testBit 3
      = if device = "dehumidify" then state else dev.dehumidify) ∧
    ((command_status dev device state).testBit 4
      = if device = "ventilation" then state else dev.ventilation) ∧
    ((command_status dev device state).testBit 5
      = if device = "close_vent" then state else dev.close_vent) ∧
    command_status ⟨false, false, false, false, true, false⟩ "cooling" true = 0x12 := by
  rcases dev with ⟨a, b, c, d, e, f⟩
  simp only [List.mem_cons, List.mem_singleton, List.not_mem_nil, or_false] at hdev
  rcases hdev with rfl | rfl | rfl | rfl | rfl | rfl <;>
    cases state <;> cases a <;> cases b <;> cases c <;> cases d <;> cases e <;> cases f <;>
    decide

/-- Witness for C6 at the spec's own example: toggling cooling on with
ventilation currently on. -/
theorem claim6_command_witness :
    ("cooling" ∈ ["heating", "cooling", "humidify", "dehumidify",
                  "ventilation", "close_vent"]) ∧
    ((send_device_command true ⟨false, false, false, false, true, false⟩ "cooling" true
      = some (pack_frame 0x03
          [command_status ⟨false, false, false, false, true, false⟩ "cooling" true])) ∧
     ((command_status ⟨false, false, false, false, true, false⟩ "cooling" true).testBit 0
       = if "cooling" = "heating" then true else false) ∧
     ((command_status ⟨false, false, false, false, true, false⟩ "cooling" true).testBit 1
       = if "cooling" = "cooling" then true else false) ∧
     ((command_status ⟨false, false, false, false, true, false⟩ "cooling" true).testBit 2
       = if "cooling" = "humidify" then true else false) ∧
     ((command_status ⟨false, false, false, false, true, false⟩ "cooling" true).testBit 3
       = if "cooling" = "dehumidify" then true else false) ∧
     ((command_status ⟨false, false, false, false, true, false⟩ "cooling" true).testBit 4
       = if "cooling" = "ventilation" then true else true) ∧
     ((command_status ⟨false, false, false, false, true, false⟩ "cooling" true).testBit 5
       = if "cooling" = "close_vent" then true else false) ∧
     command_status ⟨false, false, false, false, true, false⟩ "cooling" true = 0x12) :=
  ⟨by simp,
   claim6_command ⟨false, false, false, false, true, false⟩ true "cooling" (by simp)⟩

/-- C7 counterexample: the stated claim is false — a command-`0x01` frame
with a too-short payload appends no event at all (the source only logs
inside the `len(payload) >= 20` branch), so the event log does not grow
by one. -/
theorem claim7_counterexample :
    ¬ ((on_serial_data dec0 init_state 0x01 []).events.length
        = init_state.events.length + 1) := by
  decide

/-- C7 amended: a sensor frame whose payload is shorter than 20 bytes is
ignored entirely: the whole state — sample fields, device flags, and the
event log — is left unchanged, and no event is appended. -/
theorem claim7_short_payload (dec : List Nat → ℚ × ℚ × ℚ × ℚ × ℚ)
    (st : EnvState) (payload : List Nat) (h : payload.length < 20) :
    on_serial_data dec st 0x01 payload = st := by
  unfold on_serial_data
  rw [if_pos rfl, if_neg (by omega)]

/-- Witness for the amended C7 at the empty payload. -/
theorem claim7_short_payload_witness :
    ([] : List Nat).length < 20 ∧ on_serial_data dec0 init_state 0x01 [] = init_state :=
  ⟨by norm_num, claim7_short_payload dec0 init_state [] (by norm_num)⟩

/-- `SerialManager.list_ports`: returns `[]` when pyserial is missing;
otherwise the comports enumeration, or `[]` when that enumeration raises
(modelled by `comports = none`). -/
def list_ports (serial_available : Bool) (comports : Option (List String)) : List String :=
  if serial_available = false then []
  else
    match comports with
    | some ps => ps
    | none => []

/-- `SerialManager.connect(port, baudrate)`: returns the failure pair at
once when pyserial is missing; otherwise disconnects an already-open port
(`prior_open`), then either connects (`open_error = none`) or reports the
caught exception.  The second component is the resulting `connected`
flag. -/
def connect (serial_available : Bool) (prior_open : Bool) (open_error : Option String)
    (connected : Bool) (port : String) (baudrate : Nat) : (Bool × String) × Bool :=
  if serial_available = false then ((false, "Serial library not available"), connected)
  else
    let connected1 := if prior_open then false else connected
    match open_error with
    | none => ((true, "Connected to " ++ port), true)
    | some e => ((false, "Connection failed: " ++ e), connected1)

/-- C8: Degraded operation without the serial capability: with
`SERIAL_AVAILABLE = false`, `list_ports` returns the empty list and
`connect` returns the failure pair for every port and baud rate, leaving
the connection flag exactly as it was (disconnected stays disconnected);
both are total functions — no exception escapes. -/
theorem claim8_degraded (comports : Option (List String)) (prior_open : Bool)
    (open_error : Option String) (connected : Bool) (port : String) (baudrate : Nat) :
    list_ports false comports = [] ∧
    connect false prior_open open_error connected port baudrate
      = ((false, "Serial library not available"), connected) :=
  ⟨rfl, rfl⟩

/-- C10: Frame effect of `auto_control`: the `close_vent` flag is
returned unchanged, and the result is invariant under arbitrary changes
to the light and smoke thresholds — only the temperature band, humidity
band and CO2 max are ever read. -/
theorem claim10_tick_frame (data : Sample) (th : Thresholds) (dev : DeviceStates)
    (events : List Event) (a b c : ℚ) :
    (auto_control data th dev events).1.close_vent = dev.close_vent ∧
    auto_control data { th with light_min := a, light_max := b, smoke_max := c } dev events
      = auto_control data th dev events := by
  constructor
  · have f1 := temp_control_frame data th dev
    have f2 := hum_control_frame data th (temp_control data th dev).1
    have f3 := co2_control_frame data th (hum_control data th (temp_control data th dev).1).1
    unfold auto_control
    dsimp only
    rw [f3.2.2.2.2, f2.2.2.2, f1.2.2.2]
  · rfl

end EnvCtl
